import Mathlib

/-!
Verification of the ZiVPN Telegram bot (repository KAISARVPN/Premium).

The repository holds three near-duplicate variants of one Go program:
  * `src/unnamed/part_001`  — the complete variant (called "part_001" below);
  * `src/zivpn-bot.go`      — a variant with debounced session saves and a
    `default` branch in the callback switch (called "zivpn" below);
  * `src/unnamed/part_000`  — a variant close to zivpn (called "part_000").

This file shallowly embeds the conversational state machine, the session
registry, the restore allow-list filter, the pagination arithmetic and the
broadcast fan-out of those variants, and settles the frozen claims about them.

Conventions of the embedding:
  * Go `int64` identifiers are modelled as `Int` (only equality is used);
  * Go maps keyed by user id are modelled as association lists (registry)
    or as functions `Int → Option _` (conversation state);
  * the Telegram transport is modelled by an oracle `ok : Int → Bool`
    telling whether `bot.Send` to a given chat id succeeds, and by a trace
    of `Effect`s recording outbound messages and callback acknowledgments;
  * callback payload strings (`query.Data`) are modelled as `List Char`
    so that prefix dispatch can be reasoned about for arbitrary suffixes;
    message texts are modelled as `String`.
-/

-- ==========================================
-- String primitives used by the Go source
-- ==========================================

/-- Model of Go `strings.HasPrefix pat data` (argument order: pattern first). -/
def strStartsWith : List Char → List Char → Bool
  | [], _ => true
  | _ :: _, [] => false
  | a :: as, b :: bs => a == b && strStartsWith as bs

/-- Model of Go `strings.Split data sep` for a one-character separator:
splits at every occurrence of `sep`; always returns at least one part. -/
def goSplit (sep : Char) : List Char → List (List Char)
  | [] => [[]]
  | c :: cs =>
    if c = sep then [] :: goSplit sep cs
    else
      match goSplit sep cs with
      | [] => [[c]]
      | p :: ps => (c :: p) :: ps

/-- Model of Go `strings.Contains haystack needle`. -/
def strContainsTok : List Char → List Char → Bool
  | [], sub => sub.isEmpty
  | c :: cs, sub => strStartsWith sub (c :: cs) || strContainsTok cs sub

/-- ASCII lower-casing of one character, as Go `strings.ToLower` acts on the
ASCII payloads relevant here (full Unicode folding is not needed by any claim). -/
def charLower (c : Char) : Char :=
  if 'A' ≤ c ∧ c ≤ 'Z' then Char.ofNat (c.toNat + 32) else c

/-- Model of Go `strings.ToLower`. -/
def goToLower (s : String) : String := String.mk (s.data.map charLower)

/-- ASCII whitespace, as Go `unicode.IsSpace` classifies the characters
relevant here (the non-ASCII Unicode spaces are not needed by any claim). -/
def isSpaceGo (c : Char) : Bool := c = ' ' || c = '\t' || c = '\n' || c = '\r'

/-- Model of Go `strings.TrimSpace`. -/
def goTrimSpace (s : String) : String :=
  String.mk (((s.data.dropWhile isSpaceGo).reverse.dropWhile isSpaceGo).reverse)

/-- Accumulating decimal-digit parser behind `goAtoiList`; fails on the first
non-digit character, as Go `strconv.Atoi` does. -/
def parseDigitsAux : List Char → Nat → Option Nat
  | [], acc => some acc
  | c :: cs, acc =>
    if '0' ≤ c ∧ c ≤ '9' then parseDigitsAux cs (acc * 10 + (c.toNat - '0'.toNat))
    else none

/-- Model of Go `strconv.Atoi`: optional sign, then at least one decimal digit,
nothing else.  The 64-bit range error of Go is not modelled; no claim depends
on it. -/
def goAtoiList : List Char → Option Int
  | [] => none
  | '+' :: rest =>
    if rest = [] then none else (parseDigitsAux rest 0).map Int.ofNat
  | '-' :: rest =>
    if rest = [] then none else (parseDigitsAux rest 0).map (fun n => -(n : Int))
  | l => (parseDigitsAux l 0).map Int.ofNat

/-- Go `page, _ := strconv.Atoi(s)` with the error discarded: yields 0 on a
parse error. -/
def goAtoi (l : List Char) : Int := (goAtoiList l).getD 0

-- ==========================================
-- Data model (all three variants)
-- ==========================================

/-- `BotConfig` of the Go source. -/
structure BotConfig where
  botToken : String
  adminID : Int
  mode : String
  domain : String
deriving DecidableEq

/-- `ChatSession` of part_001 (no username field). -/
structure ChatSession where
  userID : Int
  chatID : Int
  joined : String
deriving DecidableEq

/-- `ChatSession` of part_000 / zivpn (with a username field). -/
structure ChatSession0 where
  userID : Int
  chatID : Int
  username : String
  joined : String
deriving DecidableEq

/-- One inbound Telegram text-message event, with the accessor results of the
Telegram library (`IsCommand`, `Command`, `Document != nil`) carried as fields. -/
structure MsgEvent where
  userID : Int
  chatID : Int
  username : String
  text : String
  hasDocument : Bool
  isCmd : Bool
  command : String
deriving DecidableEq

/-- Observable outbound actions of a handler: messages sent, menus drawn,
callback acknowledgments (`bot.Request(tgbotapi.NewCallback ...)`), broadcast
delivery attempts and the aggregate report.  Handlers that do not touch the
registry, the state maps or the callback acknowledgment are abstracted as
`handlerCall` with the Go function name. -/
inductive Effect where
  | sendText (chatID : Int) (text : String)
  | showMenu (chatID : Int)
  | ackCb (note : String)
  | handlerCall (tag : String)
  | deliver (chatID : Int) (payload : String)
  | report (chatID : Int) (success failed : Nat)
deriving DecidableEq

/-- `isAllowed` of the Go source. -/
def isAllowed (config : BotConfig) (userID : Int) : Bool :=
  config.mode == "public" || userID == config.adminID

/-- `saveChatSession` of part_001: inserts a session only when the user id is
not yet present (no refresh). -/
def saveChatSession1 (registry : List ChatSession) (userID chatID : Int)
    (now : String) : List ChatSession :=
  if registry.any (fun s => s.userID == userID) then registry
  else registry ++ [⟨userID, chatID, now⟩]

/-- `saveChatSession` of zivpn (and, per its closing comment, part_000):
always overwrites the session for the user id.  The map overwrite is modelled
on the association list as remove-then-append. -/
def saveChatSession0 (registry : List ChatSession0) (userID chatID : Int)
    (username now : String) : List ChatSession0 :=
  (registry.filter (fun s => s.userID != userID)) ++ [⟨userID, chatID, username, now⟩]

-- ==========================================
-- Broadcast fan-out (sendBroadcastMessage)
-- ==========================================

/-- Result of one pass of the part_001 broadcast loop over a snapshot of
`activeChats`: success and failure tallies, the chat ids attempted (iteration
order), and the surviving registry (part_001 executes
`delete(activeChats, userID)` for every failed recipient; Go permits deleting
the entry currently ranged over, so the snapshot-list model is faithful). -/
structure BroadcastPass where
  sent : Nat
  failed : Nat
  attempted : List Int
  registry : List ChatSession
deriving DecidableEq

/-- The `for userID, session := range activeChats` loop of part_001's
`sendBroadcastMessage`: skip the admin, attempt delivery to everyone else,
count successes and failures, and drop failed recipients from the registry. -/
def broadcastLoop (adminID : Int) (ok : Int → Bool) : List ChatSession → BroadcastPass
  | [] => ⟨0, 0, [], []⟩
  | s :: rest =>
    let r := broadcastLoop adminID ok rest
    if s.userID = adminID then
      { r with registry := s :: r.registry }
    else if ok s.chatID then
      ⟨r.sent + 1, r.failed, s.chatID :: r.attempted, s :: r.registry⟩
    else
      ⟨r.sent, r.failed + 1, s.chatID :: r.attempted, r.registry⟩

/-- Outcome of part_001's `sendBroadcastMessage`: either the `/cancel` branch
ran (`cancelOperation`, nothing delivered), or the fan-out completed with the
given payload, tallies, attempts and surviving registry. -/
inductive BroadcastOutcome where
  | cancelled (registry : List ChatSession)
  | completed (payload : String) (sent failed : Nat) (attempted : List Int)
      (registry : List ChatSession)
deriving DecidableEq

/-- Whether the cancel branch of `sendBroadcastMessage` ran. -/
def BroadcastOutcome.isCancelled : BroadcastOutcome → Bool
  | .cancelled _ => true
  | .completed _ _ _ _ _ => false

/-- The payload handed to the fan-out, if any. -/
def BroadcastOutcome.payloadOf : BroadcastOutcome → Option String
  | .cancelled _ => none
  | .completed p _ _ _ _ => some p

/-- Success tally shown in the final report (0 on cancel). -/
def BroadcastOutcome.sentOf : BroadcastOutcome → Nat
  | .cancelled _ => 0
  | .completed _ s _ _ _ => s

/-- Failure tally shown in the final report (0 on cancel). -/
def BroadcastOutcome.failedOf : BroadcastOutcome → Nat
  | .cancelled _ => 0
  | .completed _ _ f _ _ => f

/-- Chat ids to which delivery was attempted. -/
def BroadcastOutcome.attemptedOf : BroadcastOutcome → List Int
  | .cancelled _ => []
  | .completed _ _ _ a _ => a

/-- The registry (`activeChats`) after the call. -/
def BroadcastOutcome.registryOf : BroadcastOutcome → List ChatSession
  | .cancelled r => r
  | .completed _ _ _ _ r => r

/-- part_001 `sendBroadcastMessage`: the cancel test is the exact,
case-sensitive comparison `message == "/cancel"`; otherwise the fan-out runs
over the current `activeChats`. -/
def sendBroadcastMessage1 (config : BotConfig) (ok : Int → Bool)
    (registry : List ChatSession) (message : String) : BroadcastOutcome :=
  if message = "/cancel" then .cancelled registry
  else
    let p := broadcastLoop config.adminID ok registry
    .completed message p.sent p.failed p.attempted p.registry

/-- The zivpn broadcast loop: same skip-admin iteration, but a failed delivery
only appends the recipient's username to `failedUsers`; `activeChats` is never
mutated.  Returns (sent, failed, failedUsers). -/
def zivpnBroadcastLoop (adminID : Int) (ok : Int → Bool) :
    List ChatSession0 → Nat × Nat × List String
  | [] => (0, 0, [])
  | s :: rest =>
    let r := zivpnBroadcastLoop adminID ok rest
    if s.userID = adminID then r
    else if ok s.chatID then (r.1 + 1, r.2.1, r.2.2)
    else (r.1, r.2.1 + 1, s.username :: r.2.2)

/-- Outcome of zivpn's `sendBroadcastMessage`. -/
inductive BroadcastOutcome0 where
  | cancelled (registry : List ChatSession0)
  | completed (payload : String) (sent failed : Nat) (failedUsers : List String)
      (registry : List ChatSession0)
deriving DecidableEq

/-- Success tally of a zivpn broadcast outcome. -/
def BroadcastOutcome0.sentOf : BroadcastOutcome0 → Nat
  | .cancelled _ => 0
  | .completed _ s _ _ _ => s

/-- Failure tally of a zivpn broadcast outcome. -/
def BroadcastOutcome0.failedOf : BroadcastOutcome0 → Nat
  | .cancelled _ => 0
  | .completed _ _ f _ _ => f

/-- The registry (`activeChats`) after a zivpn broadcast. -/
def BroadcastOutcome0.registryOf : BroadcastOutcome0 → List ChatSession0
  | .cancelled r => r
  | .completed _ _ _ _ r => r

/-- zivpn `sendBroadcastMessage`: cancel when
`strings.ToLower(message) == "/cancel" || message == "cancel"`; the fan-out
never removes anyone from `activeChats` (failures are only listed in the
report). -/
def zivpnSendBroadcast (config : BotConfig) (ok : Int → Bool)
    (registry : List ChatSession0) (message : String) : BroadcastOutcome0 :=
  if goToLower message = "/cancel" ∨ message = "cancel" then .cancelled registry
  else
    let r := zivpnBroadcastLoop config.adminID ok registry
    .completed message r.1 r.2.1 r.2.2 registry

/-- part_000 `sendBroadcastMessage`: cancel when the lower-cased message
contains `"cancel"` anywhere; like zivpn the loop never mutates `activeChats`
(and it keeps no failed-user list).  Returns (sent, failed) or the cancel
marker, with the registry unchanged either way. -/
def sendBroadcastMessage0 (config : BotConfig) (ok : Int → Bool)
    (registry : List ChatSession0) (message : String) :
    Option (Nat × Nat) × List ChatSession0 :=
  if strContainsTok (goToLower message).data "cancel".data then (none, registry)
  else
    let r := zivpnBroadcastLoop config.adminID ok registry
    (some (r.1, r.2.1), registry)

-- ==========================================
-- Pagination arithmetic (showUserSelection /
-- showUserSelectionForMessage)
-- ==========================================

/-- The page/slice arithmetic of a pager: the clamped page, the page count and
the slice bounds `users[start:stop]`. -/
structure PageSlice where
  page : Int
  totalPages : Nat
  start : Int
  stop : Int
deriving DecidableEq

/-- The arithmetic of `showUserSelection` (part_001): `perPage = 10`,
`totalPages = (len+perPage-1)/perPage`, clamp `page` into `[1, totalPages]`,
then `start = (page-1)*perPage`, `end = min(start+perPage, len)`. -/
def showUserSelectionBounds (numUsers : Nat) (page : Int) : PageSlice :=
  let totalPages : Nat := (numUsers + 10 - 1) / 10
  let p1 : Int := if page < 1 then 1 else page
  let p2 : Int := if p1 > (totalPages : Int) then (totalPages : Int) else p1
  let start : Int := (p2 - 1) * 10
  let stop : Int := if start + 10 > (numUsers : Int) then (numUsers : Int) else start + 10
  ⟨p2, totalPages, start, stop⟩

/-- The arithmetic of `showUserSelectionForMessage` (part_001): identical to
`showUserSelectionBounds` with `perPage = 8`. -/
def showUserSelectionForMessageBounds (numUsers : Nat) (page : Int) : PageSlice :=
  let totalPages : Nat := (numUsers + 8 - 1) / 8
  let p1 : Int := if page < 1 then 1 else page
  let p2 : Int := if p1 > (totalPages : Int) then (totalPages : Int) else p1
  let start : Int := (p2 - 1) * 8
  let stop : Int := if start + 8 > (numUsers : Int) then (numUsers : Int) else start + 8
  ⟨p2, totalPages, start, stop⟩

-- ==========================================
-- Restore (processRestoreFile)
-- ==========================================

/-- The fixed allow-list `validFiles` of `processRestoreFile` (part_001);
in Go it is a `map[string]bool` literal and `!validFiles[f.Name]` skips the
entry. -/
def validFiles : List String :=
  ["config.json", "users.json", "bot-config.json", "domain", "apikey", "api_port"]

/-- Go `filepath.Join dir name` as it is applied inside `processRestoreFile`:
every name that reaches it is a member of `validFiles`, none of which contains
a path separator or a dot-dot element, so Go's path cleaning is the identity
and the join is plain concatenation with a slash. -/
def filepathJoin (dir name : String) : String := dir ++ "/" ++ name

/-- The entry loop of `processRestoreFile` (part_001): for each archive entry
name, skip it unless it is in `validFiles`, otherwise write it to
`filepath.Join("/etc/zivpn", f.Name)`.  Returns the (name, destination path)
pairs actually written, in archive order. -/
def restoreWrites : List String → List (String × String)
  | [] => []
  | name :: rest =>
    if name ∈ validFiles then (name, filepathJoin "/etc/zivpn" name) :: restoreWrites rest
    else restoreWrites rest

-- ==========================================
-- Validation helpers (part_001)
-- ==========================================

/-- Membership in the character class of the regex `^[a-zA-Z0-9_-]+$`. -/
def usernameCharOk (c : Char) : Bool :=
  ('a' ≤ c && c ≤ 'z') || ('A' ≤ c && c ≤ 'Z') || ('0' ≤ c && c ≤ '9') || c == '_' || c == '-'

/-- `regexp.MustCompile("^[a-zA-Z0-9_-]+$").MatchString text`: nonempty and
every character in the class.  (Go matches bytes; a string passes iff it is
ASCII-only and in-class, so the character-level model decides identically.) -/
def usernameRegexMatch (text : String) : Bool :=
  !text.isEmpty && text.data.all usernameCharOk

/-- `validateUsername` of part_001, returning the error message it sends when
validation fails (`none` = valid).  Go measures `len(text)` in bytes; byte
length and character length agree on every string the regex can accept, and
both models reject every other string, so `String.length` is faithful here. -/
def validateUsernameErr (text : String) : Option String :=
  if text.length < 3 ∨ text.length > 20 then
    some "❌ Password harus 3-20 karakter. Coba lagi:"
  else if usernameRegexMatch text = false then
    some "❌ Password hanya boleh huruf, angka, - dan _. Coba lagi:"
  else none

/-- `validateNumber` of part_001: `strconv.Atoi` then range check; `none`
means the error re-prompt was sent. -/
def validateNumber (text : String) (lo hi : Int) : Option Int :=
  match goAtoiList text.data with
  | none => none
  | some v => if v < lo ∨ v > hi then none else some v

-- ==========================================
-- Callback dispatch (handleCallback)
-- ==========================================

/-- One case of the `switch` over `query.Data` in `handleCallback`; the cases
carrying a `List Char` keep the full payload for the prefix-matched tokens.
`unknown` is "no case matched". -/
inductive CbCase where
  | menuCreate | menuDelete | menuRenew | menuList | menuInfo
  | menuBackupRestore | menuMessage | menuBackupAction | menuRestoreAction
  | msgBroadcast | msgPrivate | msgStats
  | pageTok (data : List Char)
  | pageMsgTok (data : List Char)
  | selectRenew (data : List Char)
  | selectDelete (data : List Char)
  | selectUserMsg (data : List Char)
  | confirmDelete (data : List Char)
  | toggleModeTok | cancelTok | unknown
deriving DecidableEq

/-- The case selection of part_001's `handleCallback` switch, in source order:
exact matches first, then `strings.HasPrefix` matches; Go takes the first
case whose condition holds.  part_001 has no `msg_stats` case and no
`default`. -/
def classifyCb1 (data : List Char) : CbCase :=
  if data = "menu_create".toList then .menuCreate
  else if data = "menu_delete".toList then .menuDelete
  else if data = "menu_renew".toList then .menuRenew
  else if data = "menu_list".toList then .menuList
  else if data = "menu_info".toList then .menuInfo
  else if data = "menu_backup_restore".toList then .menuBackupRestore
  else if data = "menu_message".toList then .menuMessage
  else if data = "menu_backup_action".toList then .menuBackupAction
  else if data = "menu_restore_action".toList then .menuRestoreAction
  else if data = "msg_broadcast".toList then .msgBroadcast
  else if data = "msg_private".toList then .msgPrivate
  else if strStartsWith "page_".toList data then .pageTok data
  else if strStartsWith "page_msg:".toList data then .pageMsgTok data
  else if strStartsWith "select_renew:".toList data then .selectRenew data
  else if strStartsWith "select_delete:".toList data then .selectDelete data
  else if strStartsWith "select_user_msg:".toList data then .selectUserMsg data
  else if strStartsWith "confirm_delete:".toList data then .confirmDelete data
  else if data = "toggle_mode".toList then .toggleModeTok
  else if data = "cancel".toList then .cancelTok
  else .unknown

/-- The case selection of the zivpn / part_000 `handleCallback` switch: the
same order with an additional exact `msg_stats` case (after `msg_private`);
`unknown` corresponds to the explicit `default` branch. -/
def classifyCb0 (data : List Char) : CbCase :=
  if data = "menu_create".toList then .menuCreate
  else if data = "menu_delete".toList then .menuDelete
  else if data = "menu_renew".toList then .menuRenew
  else if data = "menu_list".toList then .menuList
  else if data = "menu_info".toList then .menuInfo
  else if data = "menu_backup_restore".toList then .menuBackupRestore
  else if data = "menu_message".toList then .menuMessage
  else if data = "menu_backup_action".toList then .menuBackupAction
  else if data = "menu_restore_action".toList then .menuRestoreAction
  else if data = "msg_broadcast".toList then .msgBroadcast
  else if data = "msg_private".toList then .msgPrivate
  else if data = "msg_stats".toList then .msgStats
  else if strStartsWith "page_".toList data then .pageTok data
  else if strStartsWith "page_msg:".toList data then .pageMsgTok data
  else if strStartsWith "select_renew:".toList data then .selectRenew data
  else if strStartsWith "select_delete:".toList data then .selectDelete data
  else if strStartsWith "select_user_msg:".toList data then .selectUserMsg data
  else if strStartsWith "confirm_delete:".toList data then .confirmDelete data
  else if data = "toggle_mode".toList then .toggleModeTok
  else if data = "cancel".toList then .cancelTok
  else .unknown

/-- `handlePagination`: `parts := strings.Split(data, ":")`,
`action := parts[0][5:]`, `page, _ := strconv.Atoi(parts[1])`, then
`showUserSelection(bot, chatID, page, action)`.  Returns the (action, page)
arguments of that `showUserSelection` call; `none` models the index panic on
`parts[1]` when the token has no colon (never the case for the tokens the
menus emit). -/
def handlePagination (data : List Char) : Option (List Char × Int) :=
  match goSplit ':' data with
  | p0 :: p1 :: _ => some (p0.drop 5, goAtoi p1)
  | _ => none

/-- The body run for a matched callback case, with its admin guard where the
source has one.  Each handler is abstracted to a `handlerCall` effect; by
inspection of the source none of these handlers mutates `activeChats` or
issues a callback acknowledgment. -/
def cbBranchEffects (config : BotConfig) (userID : Int) : CbCase → List Effect
  | .menuCreate => [.handlerCall "startCreateUser"]
  | .menuDelete => [.handlerCall "showUserSelection.delete"]
  | .menuRenew => [.handlerCall "showUserSelection.renew"]
  | .menuList => if userID = config.adminID then [.handlerCall "listUsers"] else []
  | .menuInfo => if userID = config.adminID then [.handlerCall "systemInfo"] else []
  | .menuBackupRestore =>
    if userID = config.adminID then [.handlerCall "showBackupRestoreMenu"] else []
  | .menuMessage => if userID = config.adminID then [.handlerCall "showMessageMenu"] else []
  | .menuBackupAction => if userID = config.adminID then [.handlerCall "performBackup"] else []
  | .menuRestoreAction => if userID = config.adminID then [.handlerCall "startRestore"] else []
  | .msgBroadcast =>
    if userID = config.adminID then [.handlerCall "startBroadcastMessage"] else []
  | .msgPrivate =>
    if userID = config.adminID then [.handlerCall "startSelectUserForMessage"] else []
  | .msgStats => if userID = config.adminID then [.handlerCall "showMessageStats"] else []
  | .pageTok _ => [.handlerCall "handlePagination"]
  | .pageMsgTok _ => [.handlerCall "showUserSelectionForMessage"]
  | .selectRenew _ => [.handlerCall "startRenewUser"]
  | .selectDelete _ => [.handlerCall "confirmDeleteUser"]
  | .selectUserMsg _ => [.handlerCall "startPrivateMessage"]
  | .confirmDelete _ => [.handlerCall "deleteUser"]
  | .toggleModeTok => [.handlerCall "toggleMode"]
  | .cancelTok => [.handlerCall "cancelOperation"]
  | .unknown => []

/-- part_001 `handleCallback`: the access check runs FIRST (before
`saveChatSession`); a denied click is acknowledged with "Akses Ditolak" and
returns without recording the session.  Otherwise the session is saved, the
switch runs (no `default`), and the final `bot.Request(NewCallback(query.ID,
""))` acknowledges the click. -/
def handleCallback1 (config : BotConfig) (registry : List ChatSession)
    (userID chatID : Int) (now : String) (data : List Char) :
    List ChatSession × List Effect :=
  if isAllowed config userID = false ∧
      (data ≠ "toggle_mode".toList ∨ userID ≠ config.adminID) then
    (registry, [.ackCb "Akses Ditolak"])
  else
    let reg1 := saveChatSession1 registry userID chatID now
    (reg1, cbBranchEffects config userID (classifyCb1 data) ++ [.ackCb ""])

/-- zivpn `handleCallback`: the session is saved BEFORE the access check; a
denied click is acknowledged with "Akses Ditolak"; otherwise the switch runs,
where the `default` branch acknowledges with "Aksi tidak dikenal", and then
the final acknowledgment runs unconditionally — so an unrecognized token is
acknowledged twice. -/
def zivpnHandleCallback (config : BotConfig) (registry : List ChatSession0)
    (userID chatID : Int) (username now : String) (data : List Char) :
    List ChatSession0 × List Effect :=
  let reg1 := saveChatSession0 registry userID chatID username now
  if isAllowed config userID = false ∧
      (data ≠ "toggle_mode".toList ∨ userID ≠ config.adminID) then
    (reg1, [.ackCb "Akses Ditolak"])
  else
    let branch :=
      match classifyCb0 data with
      | .unknown => [Effect.ackCb "Aksi tidak dikenal"]
      | c => cbBranchEffects config userID c
    (reg1, branch ++ [.ackCb ""])

/-- Whether an effect is a callback acknowledgment
(`bot.Request(tgbotapi.NewCallback ...)`). -/
def isAck : Effect → Bool
  | .ackCb _ => true
  | _ => false

/-- Number of callback acknowledgments in a trace. -/
def ackCount (l : List Effect) : Nat := (l.filter isAck).length

-- ==========================================
-- Conversation state machine (handleState /
-- handleMessage)
-- ==========================================

/-- Point update of a map modelled as a function. -/
def mupd {α : Type} (m : Int → Option α) (k : Int) (v : Option α) : Int → Option α :=
  fun x => if x = k then v else m x

/-- Insert-or-replace in the scratch field map (`tempUserData[userID][key] = v`). -/
def scratchPut (l : List (String × String)) (key v : String) : List (String × String) :=
  (l.filter (fun p => p.1 != key)) ++ [(key, v)]

/-- The process-wide mutable state of part_001 relevant to the claims:
`activeChats`, `userStates` and `tempUserData`. -/
structure BotState where
  registry : List ChatSession
  userStates : Int → Option String
  tempUserData : Int → Option (List (String × String))

/-- `resetState`: delete the user from `userStates` and `tempUserData`. -/
def resetStateIn (st : BotState) (userID : Int) : BotState :=
  { st with
    userStates := mupd st.userStates userID none
    tempUserData := mupd st.tempUserData userID none }

/-- `handleState` of part_001 for one user input.  `rawText` is `msg.Text`;
the handler works on `strings.TrimSpace(msg.Text)`.  Backend calls
(`createUser`, `renewUser`, `sendPrivateMessageToUser`) are abstracted as
`handlerCall` effects — by inspection none of them mutates `activeChats`,
`userStates` or `tempUserData` (their cancel sub-path only calls
`cancelOperation`, subsumed here by the caller's `resetState`). -/
def handleState1 (config : BotConfig) (ok : Int → Bool) (st : BotState)
    (userID chatID : Int) (state : String) (rawText : String) :
    BotState × List Effect :=
  let text := goTrimSpace rawText
  if state = "create_username" then
    match validateUsernameErr text with
    | some e => (st, [.sendText chatID e])
    | none =>
      ({ st with
          userStates := mupd st.userStates userID (some "create_days")
          tempUserData := mupd st.tempUserData userID
            (some (scratchPut ((st.tempUserData userID).getD []) "username" text)) },
        [.sendText chatID "⏳ Masukkan Durasi (hari):"])
  else if state = "create_days" then
    match validateNumber text 1 9999 with
    | none => (st, [.sendText chatID "❌ Durasi harus angka positif (1-9999). Coba lagi:"])
    | some _ => (resetStateIn st userID, [.handlerCall "createUser"])
  else if state = "renew_days" then
    match validateNumber text 1 9999 with
    | none => (st, [.sendText chatID "❌ Durasi harus angka positif (1-9999). Coba lagi:"])
    | some _ => (resetStateIn st userID, [.handlerCall "renewUser"])
  else if state = "broadcast_message" then
    match sendBroadcastMessage1 config ok st.registry text with
    | .cancelled reg =>
      (resetStateIn { st with registry := reg } userID, [.showMenu chatID])
    | .completed payload sent failed attempted reg =>
      (resetStateIn { st with registry := reg } userID,
        Effect.sendText chatID "📤 Mengirim Broadcast..." ::
          attempted.map (fun cid => Effect.deliver cid payload) ++
          [.report chatID sent failed, .showMenu chatID])
  else if state = "private_message" then
    match st.tempUserData userID with
    | some _ => (resetStateIn st userID, [.handlerCall "sendPrivateMessageToUser"])
    | none => (st, [])
  else (st, [])

/-- `handleMessage` of part_001: save the session, then access control, then
the restore-upload special case, then the state machine, then commands.
part_001 ends there: free text with no active state produces NO response. -/
def handleMessage1 (config : BotConfig) (ok : Int → Bool) (st : BotState)
    (msg : MsgEvent) (now : String) : BotState × List Effect :=
  let u := msg.userID
  let c := msg.chatID
  let st1 := { st with registry := saveChatSession1 st.registry u c now }
  if isAllowed config u = false then
    (st1, [.sendText c "❌ ⛔ Akses Ditolak. Bot ini Private."])
  else if msg.hasDocument ∧ u = config.adminID ∧
      st1.userStates u = some "waiting_restore_file" then
    (resetStateIn st1 u, [.handlerCall "processRestoreFile"])
  else
    match st1.userStates u with
    | some s => handleState1 config ok st1 u c s msg.text
    | none =>
      if msg.isCmd then
        if msg.command = "start" then
          (st1, [.handlerCall "sendWelcomeMessage", .showMenu c])
        else if msg.command = "broadcast" then
          if u = config.adminID then
            ({ st1 with userStates := mupd st1.userStates u (some "broadcast_message") },
              [.handlerCall "startBroadcastMessage"])
          else (st1, [])
        else if msg.command = "message" then
          if u = config.adminID then (st1, [.handlerCall "startSelectUserForMessage"])
          else (st1, [])
        else (st1, [.sendText c "❌ Perintah tidak dikenal."])
      else (st1, [])

/-- The process-wide state of the part_000 / zivpn variant. -/
structure BotState0 where
  registry : List ChatSession0
  userStates : Int → Option String
  tempUserData : Int → Option (List (String × String))

/-- `resetState` for the part_000 / zivpn state. -/
def resetStateIn0 (st : BotState0) (userID : Int) : BotState0 :=
  { st with
    userStates := mupd st.userStates userID none
    tempUserData := mupd st.tempUserData userID none }

/-- `handleState` of part_000: identical shape to part_001's, except that the
broadcast step uses part_000's `sendBroadcastMessage` (contains-"cancel" test,
no registry pruning). -/
def handleState0 (config : BotConfig) (ok : Int → Bool) (st : BotState0)
    (userID chatID : Int) (state : String) (rawText : String) :
    BotState0 × List Effect :=
  let text := goTrimSpace rawText
  if state = "create_username" then
    match validateUsernameErr text with
    | some e => (st, [.sendText chatID e])
    | none =>
      ({ st with
          userStates := mupd st.userStates userID (some "create_days")
          tempUserData := mupd st.tempUserData userID
            (some (scratchPut ((st.tempUserData userID).getD []) "username" text)) },
        [.sendText chatID "⏳ Masukkan Durasi (hari):"])
  else if state = "create_days" then
    match validateNumber text 1 9999 with
    | none => (st, [.sendText chatID "❌ Durasi harus angka positif (1-9999). Coba lagi:"])
    | some _ => (resetStateIn0 st userID, [.handlerCall "createUser"])
  else if state = "renew_days" then
    match validateNumber text 1 9999 with
    | none => (st, [.sendText chatID "❌ Durasi harus angka positif (1-9999). Coba lagi:"])
    | some _ => (resetStateIn0 st userID, [.handlerCall "renewUser"])
  else if state = "broadcast_message" then
    match sendBroadcastMessage0 config ok st.registry text with
    | (none, reg) =>
      (resetStateIn0 { st with registry := reg } userID, [.showMenu chatID])
    | (some (sent, failed), reg) =>
      (resetStateIn0 { st with registry := reg } userID,
        Effect.sendText chatID "📤 Mengirim Broadcast..." ::
          [.report chatID sent failed, .showMenu chatID])
  else if state = "private_message" then
    match st.tempUserData userID with
    | some _ => (resetStateIn0 st userID, [.handlerCall "sendPrivateMessageToUser"])
    | none => (st, [])
  else (st, [])

/-- `handleMessage` of part_000 (and zivpn): save the session (overwrite
variant), access control, restore-upload special case, state machine,
commands — and, unlike part_001, a trailing `showMainMenu` for free text with
no state and no command. -/
def handleMessage0 (config : BotConfig) (ok : Int → Bool) (st : BotState0)
    (msg : MsgEvent) (now : String) : BotState0 × List Effect :=
  let u := msg.userID
  let c := msg.chatID
  let st1 := { st with registry := saveChatSession0 st.registry u c msg.username now }
  if isAllowed config u = false then
    (st1, [.sendText c "❌ ⛔ Akses Ditolak. Bot ini Private."])
  else if msg.hasDocument ∧ u = config.adminID ∧
      st1.userStates u = some "waiting_restore_file" then
    (resetStateIn0 st1 u, [.handlerCall "processRestoreFile"])
  else
    match st1.userStates u with
    | some s => handleState0 config ok st1 u c s msg.text
    | none =>
      if msg.isCmd then
        if msg.command = "start" then
          (st1, [.handlerCall "sendWelcomeMessage", .showMenu c])
        else if msg.command = "broadcast" then
          if u = config.adminID then
            ({ st1 with userStates := mupd st1.userStates u (some "broadcast_message") },
              [.handlerCall "startBroadcastMessage"])
          else (st1, [])
        else if msg.command = "message" then
          if u = config.adminID then (st1, [.handlerCall "showMessageMenu"])
          else (st1, [])
        else if msg.command = "status" then
          (st1, [.handlerCall "checkStatus"])
        else if msg.command = "help" then
          (st1, [.handlerCall "sendHelpMessage"])
        else (st1, [.sendText c "❌ Perintah tidak dikenal."])
      else (st1, [.showMenu c])

-- ==========================================
-- Helper lemmas
-- ==========================================

lemma restoreWrites_eq (entries : List String) :
    restoreWrites entries =
      (entries.filter (fun n => decide (n ∈ validFiles))).map
        (fun n => (n, filepathJoin "/etc/zivpn" n)) := by
  induction entries with
  | nil => rfl
  | cons n rest ih =>
    by_cases h : n ∈ validFiles <;> simp [restoreWrites, h, ih, List.filter]

lemma validFiles_path_inside (n : String) (h : n ∈ validFiles) :
    strStartsWith "/etc/zivpn/".toList (filepathJoin "/etc/zivpn" n).toList = true := by
  fin_cases h <;> decide

-- ==========================================
-- C2: restore allow-list and target directory
-- ==========================================

/-- C2: for every archive processed by `processRestoreFile`, every entry whose
name is not in the allow-list (config.json, users.json, bot-config.json,
domain, apikey, api_port) is skipped without being written — the writes are
exactly the allow-listed entries, in order — and every written entry goes to a
path inside /etc/zivpn. -/
theorem restore_allowlist_and_target (entries : List String) :
    restoreWrites entries =
      (entries.filter (fun n => decide (n ∈ validFiles))).map
        (fun n => (n, filepathJoin "/etc/zivpn" n)) ∧
    ∀ p ∈ restoreWrites entries,
      p.1 ∈ validFiles ∧
      strStartsWith "/etc/zivpn/".toList p.2.toList = true := by
  refine ⟨restoreWrites_eq entries, ?_⟩
  intro p hp
  rw [restoreWrites_eq] at hp
  simp only [List.mem_map, List.mem_filter] at hp
  obtain ⟨n, ⟨_, hn⟩, rfl⟩ := hp
  have hmem : n ∈ validFiles := by simpa using hn
  exact ⟨hmem, validFiles_path_inside n hmem⟩

-- ==========================================
-- C10: pagination clamping and slice bounds
-- ==========================================

/-- C10: for every non-empty account list and every integer page number, both
pagers (`showUserSelection` with 10 per page and `showUserSelectionForMessage`
with 8 per page) clamp the page into [1, totalPages] and compute slice bounds
with 0 ≤ start ≤ stop ≤ length, so `users[start:end]` never indexes out of
range. -/
theorem pagination_bounds (numUsers : Nat) (page : Int) (hpos : 0 < numUsers) :
    (1 ≤ (showUserSelectionBounds numUsers page).page ∧
      (showUserSelectionBounds numUsers page).page ≤
        ((showUserSelectionBounds numUsers page).totalPages : Int) ∧
      0 ≤ (showUserSelectionBounds numUsers page).start ∧
      (showUserSelectionBounds numUsers page).start ≤
        (showUserSelectionBounds numUsers page).stop ∧
      (showUserSelectionBounds numUsers page).stop ≤ (numUsers : Int)) ∧
    (1 ≤ (showUserSelectionForMessageBounds numUsers page).page ∧
      (showUserSelectionForMessageBounds numUsers page).page ≤
        ((showUserSelectionForMessageBounds numUsers page).totalPages : Int) ∧
      0 ≤ (showUserSelectionForMessageBounds numUsers page).start ∧
      (showUserSelectionForMessageBounds numUsers page).start ≤
        (showUserSelectionForMessageBounds numUsers page).stop ∧
      (showUserSelectionForMessageBounds numUsers page).stop ≤ (numUsers : Int)) := by
  constructor
  · simp only [showUserSelectionBounds]
    split <;> split <;> omega
  · simp only [showUserSelectionForMessageBounds]
    split <;> split <;> omega

/-- Witness for `pagination_bounds` at a concrete list size and a negative
page number. -/
theorem pagination_bounds_witness :
    0 < 23 ∧
    (1 ≤ (showUserSelectionBounds 23 (-4)).page ∧
      (showUserSelectionBounds 23 (-4)).page ≤
        ((showUserSelectionBounds 23 (-4)).totalPages : Int) ∧
      0 ≤ (showUserSelectionBounds 23 (-4)).start ∧
      (showUserSelectionBounds 23 (-4)).start ≤ (showUserSelectionBounds 23 (-4)).stop ∧
      (showUserSelectionBounds 23 (-4)).stop ≤ (23 : Int)) ∧
    (1 ≤ (showUserSelectionForMessageBounds 23 (-4)).page ∧
      (showUserSelectionForMessageBounds 23 (-4)).page ≤
        ((showUserSelectionForMessageBounds 23 (-4)).totalPages : Int) ∧
      0 ≤ (showUserSelectionForMessageBounds 23 (-4)).start ∧
      (showUserSelectionForMessageBounds 23 (-4)).start ≤
        (showUserSelectionForMessageBounds 23 (-4)).stop ∧
      (showUserSelectionForMessageBounds 23 (-4)).stop ≤ (23 : Int)) :=
  ⟨by decide, (pagination_bounds 23 (-4) (by decide)).1,
    (pagination_bounds 23 (-4) (by decide)).2⟩

-- ==========================================
-- Broadcast loop lemmas
-- ==========================================

lemma broadcastLoop_attempted (a : Int) (ok : Int → Bool) (l : List ChatSession) :
    (broadcastLoop a ok l).attempted =
      (l.filter (fun s => s.userID != a)).map (fun s => s.chatID) := by
  induction l with
  | nil => rfl
  | cons s rest ih =>
    by_cases h : s.userID = a
    · simp [broadcastLoop, h, ih]
    · by_cases hok : ok s.chatID <;> simp [broadcastLoop, h, hok, ih]

lemma broadcastLoop_registry (a : Int) (ok : Int → Bool) (l : List ChatSession) :
    (broadcastLoop a ok l).registry =
      l.filter (fun s => s.userID == a || ok s.chatID) := by
  induction l with
  | nil => rfl
  | cons s rest ih =>
    by_cases h : s.userID = a
    · simp [broadcastLoop, h, ih]
    · by_cases hok : ok s.chatID <;> simp [broadcastLoop, h, hok, ih]

lemma broadcastLoop_failed (a : Int) (ok : Int → Bool) (l : List ChatSession) :
    (broadcastLoop a ok l).failed =
      (l.filter (fun s => s.userID != a && !(ok s.chatID))).length := by
  induction l with
  | nil => rfl
  | cons s rest ih =>
    by_cases h : s.userID = a
    · simp [broadcastLoop, h, ih]
    · by_cases hok : ok s.chatID <;> simp [broadcastLoop, h, hok, ih]

lemma broadcastLoop_sent_add_failed (a : Int) (ok : Int → Bool) (l : List ChatSession) :
    (broadcastLoop a ok l).sent + (broadcastLoop a ok l).failed =
      (broadcastLoop a ok l).attempted.length := by
  induction l with
  | nil => rfl
  | cons s rest ih =>
    by_cases h : s.userID = a
    · simpa [broadcastLoop, h] using ih
    · by_cases hok : ok s.chatID <;> simp [broadcastLoop, h, hok] <;> omega

lemma filter_ne_key_length {A : Type} (key : A → Int) (l : List A) (a : Int)
    (hnd : (l.map key).Nodup) (hmem : a ∈ l.map key) :
    (l.filter (fun s => key s != a)).length = l.length - 1 := by
  induction l with
  | nil => simp at hmem
  | cons s rest ih =>
    simp only [List.map_cons, List.nodup_cons, List.mem_cons] at hnd hmem
    by_cases h : key s = a
    · have hrest : rest.filter (fun s => key s != a) = rest := by
        apply List.filter_eq_self.mpr
        intro x hx
        simp only [bne_iff_ne, ne_eq]
        intro hxa
        have hx2 : key x ∈ List.map key rest := List.mem_map_of_mem key hx
        rw [hxa, ← h] at hx2
        exact hnd.1 hx2
      simp [h, hrest]
    · rcases hmem with hmem | hmem
      · exact absurd hmem.symm h
      · have hlen := ih hnd.2 hmem
        have hpos : 0 < rest.length := by
          rcases List.exists_of_mem_map hmem with ⟨x, hx, _⟩
          exact List.length_pos.mpr (by rintro rfl; simp at hx)
        simp only [List.filter_cons]
        have hb : (key s != a) = true := by simpa using h
        rw [hb]
        simp only [if_true, List.length_cons, hlen]
        omega

lemma zivpnLoop_failed (a : Int) (ok : Int → Bool) (l : List ChatSession0) :
    (zivpnBroadcastLoop a ok l).2.1 =
      (l.filter (fun s => s.userID != a && !(ok s.chatID))).length := by
  induction l with
  | nil => rfl
  | cons s rest ih =>
    by_cases h : s.userID = a
    · simp [zivpnBroadcastLoop, h, ih]
    · by_cases hok : ok s.chatID <;> simp [zivpnBroadcastLoop, h, hok, ih]

lemma zivpnLoop_sent_add_failed (a : Int) (ok : Int → Bool) (l : List ChatSession0) :
    (zivpnBroadcastLoop a ok l).1 + (zivpnBroadcastLoop a ok l).2.1 =
      (l.filter (fun s => s.userID != a)).length := by
  induction l with
  | nil => rfl
  | cons s rest ih =>
    by_cases h : s.userID = a
    · simpa [zivpnBroadcastLoop, h] using ih
    · by_cases hok : ok s.chatID <;> simp [zivpnBroadcastLoop, h, hok] <;> omega

-- ==========================================
-- C1: broadcast attempt count and report
-- ==========================================

/-- C1: for every registry of N recorded sessions (unique user ids, as in the
Go map) containing the administrator, and every non-cancel broadcast payload,
`sendBroadcastMessage` attempts delivery to every recorded session except the
administrator's own — exactly N-1 attempts — and the report shows
success = N-1-K and failed = K, where K is the number of attempts whose send
failed.  Proved for the part_001 variant and for the zivpn variant. -/
theorem broadcast_attempts_and_report (config : BotConfig) (ok : Int → Bool)
    (reg1 : List ChatSession) (reg0 : List ChatSession0) (message : String)
    (hmsg1 : message ≠ "/cancel")
    (hmsg0 : ¬(goToLower message = "/cancel" ∨ message = "cancel"))
    (hnd1 : (reg1.map (fun s => s.userID)).Nodup)
    (hadm1 : config.adminID ∈ reg1.map (fun s => s.userID))
    (hnd0 : (reg0.map (fun s => s.userID)).Nodup)
    (hadm0 : config.adminID ∈ reg0.map (fun s => s.userID)) :
    ((sendBroadcastMessage1 config ok reg1 message).attemptedOf
        = (reg1.filter (fun s => s.userID != config.adminID)).map (fun s => s.chatID) ∧
      (sendBroadcastMessage1 config ok reg1 message).attemptedOf.length
        = reg1.length - 1 ∧
      (sendBroadcastMessage1 config ok reg1 message).failedOf
        = (reg1.filter (fun s => s.userID != config.adminID && !(ok s.chatID))).length ∧
      (sendBroadcastMessage1 config ok reg1 message).sentOf
        = reg1.length - 1 -
            (reg1.filter (fun s => s.userID != config.adminID && !(ok s.chatID))).length) ∧
    ((zivpnSendBroadcast config ok reg0 message).failedOf
        = (reg0.filter (fun s => s.userID != config.adminID && !(ok s.chatID))).length ∧
      (zivpnSendBroadcast config ok reg0 message).sentOf
        = reg0.length - 1 -
            (reg0.filter (fun s => s.userID != config.adminID && !(ok s.chatID))).length) := by
  have hatt : (broadcastLoop config.adminID ok reg1).attempted.length
      = reg1.length - 1 := by
    rw [broadcastLoop_attempted, List.length_map]
    exact filter_ne_key_length (fun s => s.userID) reg1 config.adminID hnd1 hadm1
  have hfail := broadcastLoop_failed config.adminID ok reg1
  have hsum := broadcastLoop_sent_add_failed config.adminID ok reg1
  have hfail0 := zivpnLoop_failed config.adminID ok reg0
  have hsum0 := zivpnLoop_sent_add_failed config.adminID ok reg0
  have hlen0 : (reg0.filter (fun s => s.userID != config.adminID)).length
      = reg0.length - 1 :=
    filter_ne_key_length (fun s => s.userID) reg0 config.adminID hnd0 hadm0
  constructor
  · simp only [sendBroadcastMessage1, if_neg hmsg1, BroadcastOutcome.attemptedOf,
      BroadcastOutcome.failedOf, BroadcastOutcome.sentOf]
    exact ⟨broadcastLoop_attempted config.adminID ok reg1, hatt, hfail, by omega⟩
  · simp only [zivpnSendBroadcast, if_neg hmsg0, BroadcastOutcome0.failedOf,
      BroadcastOutcome0.sentOf]
    exact ⟨hfail0, by omega⟩

/-- Witness for `broadcast_attempts_and_report`: a registry of 3 sessions
(admin id 1 among them), delivery to chat 30 failing: 2 attempts,
success = 1, failed = 1. -/
theorem broadcast_attempts_and_report_witness :
    ((("hello" : String) ≠ "/cancel") ∧
      ¬(goToLower "hello" = "/cancel" ∨ ("hello" : String) = "cancel")) ∧
    ((sendBroadcastMessage1 ⟨"t", 1, "public", "d"⟩ (fun c => c != 30)
        [⟨1, 10, "j"⟩, ⟨2, 20, "j"⟩, ⟨3, 30, "j"⟩] "hello").attemptedOf.length = 2 ∧
      (sendBroadcastMessage1 ⟨"t", 1, "public", "d"⟩ (fun c => c != 30)
        [⟨1, 10, "j"⟩, ⟨2, 20, "j"⟩, ⟨3, 30, "j"⟩] "hello").failedOf = 1 ∧
      (sendBroadcastMessage1 ⟨"t", 1, "public", "d"⟩ (fun c => c != 30)
        [⟨1, 10, "j"⟩, ⟨2, 20, "j"⟩, ⟨3, 30, "j"⟩] "hello").sentOf = 1) := by
  have h := broadcast_attempts_and_report ⟨"t", 1, "public", "d"⟩ (fun c => c != 30)
    [⟨1, 10, "j"⟩, ⟨2, 20, "j"⟩, ⟨3, 30, "j"⟩]
    [⟨1, 10, "u", "j"⟩, ⟨2, 20, "u", "j"⟩, ⟨3, 30, "u", "j"⟩] "hello"
    (by decide) (by decide) (by decide) (by decide) (by decide) (by decide)
  exact ⟨⟨by decide, by decide⟩, h.1.2.1, h.1.2.2.1, h.1.2.2.2⟩

-- ==========================================
-- C4: failure handling during the fan-out
-- ==========================================

/-- C4 counterexample: in the zivpn variant, with registry
{admin(1), userB(3)} and delivery to userB's chat failing, the report counts
the failure but userB is STILL in `activeChats` after the pass — the claimed
removal of failed recipients does not happen in this variant. -/
theorem broadcast_failed_not_removed_cex :
    (zivpnSendBroadcast ⟨"t", 1, "public", "d"⟩ (fun c => c != 30)
        [⟨1, 10, "a", "j"⟩, ⟨3, 30, "b", "j"⟩] "hello").failedOf = 1 ∧
    ((zivpnSendBroadcast ⟨"t", 1, "public", "d"⟩ (fun c => c != 30)
        [⟨1, 10, "a", "j"⟩, ⟨3, 30, "b", "j"⟩] "hello").registryOf.any
      (fun s => s.userID == 3)) = true := by
  decide

/-- C4 amended: a delivery failure never aborts the batch (every non-admin
session is attempted) in either variant; in the part_001 variant the registry
after the pass is exactly the sessions whose delivery succeeded plus the
administrator's own, while in the zivpn variant the registry is unchanged by
the fan-out (failed recipients are only listed in the report). -/
theorem broadcast_failure_handling_amended (config : BotConfig) (ok : Int → Bool)
    (reg1 : List ChatSession) (reg0 : List ChatSession0) (message : String)
    (hmsg1 : message ≠ "/cancel") :
    ((sendBroadcastMessage1 config ok reg1 message).attemptedOf
        = (reg1.filter (fun s => s.userID != config.adminID)).map (fun s => s.chatID) ∧
      (sendBroadcastMessage1 config ok reg1 message).registryOf
        = reg1.filter (fun s => s.userID == config.adminID || ok s.chatID)) ∧
    (zivpnSendBroadcast config ok reg0 message).registryOf = reg0 := by
  refine ⟨?_, ?_⟩
  · simp only [sendBroadcastMessage1, if_neg hmsg1, BroadcastOutcome.attemptedOf,
      BroadcastOutcome.registryOf]
    exact ⟨broadcastLoop_attempted config.adminID ok reg1,
      broadcastLoop_registry config.adminID ok reg1⟩
  · unfold zivpnSendBroadcast
    split <;> rfl

/-- Witness for `broadcast_failure_handling_amended`: the §8 scenario —
registry {admin(1), userA(2), userB(3)}, delivery to userB failing —
both remaining users attempted, userB dropped, userA and admin kept. -/
theorem broadcast_failure_handling_amended_witness :
    (("hello" : String) ≠ "/cancel") ∧
    ((sendBroadcastMessage1 ⟨"t", 1, "public", "d"⟩ (fun c => c != 30)
        [⟨1, 10, "j"⟩, ⟨2, 20, "j"⟩, ⟨3, 30, "j"⟩] "hello").attemptedOf = [20, 30] ∧
      (sendBroadcastMessage1 ⟨"t", 1, "public", "d"⟩ (fun c => c != 30)
        [⟨1, 10, "j"⟩, ⟨2, 20, "j"⟩, ⟨3, 30, "j"⟩] "hello").registryOf
        = [⟨1, 10, "j"⟩, ⟨2, 20, "j"⟩]) := by
  have h := broadcast_failure_handling_amended ⟨"t", 1, "public", "d"⟩
    (fun c => c != 30) [⟨1, 10, "j"⟩, ⟨2, 20, "j"⟩, ⟨3, 30, "j"⟩] [] "hello" (by decide)
  refine ⟨by decide, ?_, ?_⟩
  · rw [h.1.1]; decide
  · rw [h.1.2]; decide


-- ==========================================
-- C3: the broadcast cancel test
-- ==========================================

/-- C3 counterexample: "/CANCEL" case-insensitively equals the cancel keyword
"/cancel", yet part_001's `sendBroadcastMessage` does NOT abort on it — the
fan-out runs and delivers the text to the non-admin recipient (chat 20). -/
theorem broadcast_cancel_case_cex :
    goToLower "/CANCEL" = goToLower "/cancel" ∧
    (sendBroadcastMessage1 ⟨"t", 1, "public", "d"⟩ (fun _ => true)
        [⟨1, 10, "j"⟩, ⟨2, 20, "j"⟩] "/CANCEL").isCancelled = false ∧
    (sendBroadcastMessage1 ⟨"t", 1, "public", "d"⟩ (fun _ => true)
        [⟨1, 10, "j"⟩, ⟨2, 20, "j"⟩] "/CANCEL").attemptedOf = [20] := by
  decide

/-- C3 amended: in the part_001 variant, the broadcast await-text step aborts
if and only if the trimmed text EXACTLY (case-sensitively) equals "/cancel";
on abort the state is cleared, the idle menu is shown and nothing is
delivered; any other text — including other case variants of "/cancel" — is
handed in its entirety to the fan-out as the payload, and the state is
cleared afterwards as well. -/
theorem broadcast_cancel_exact_amended (config : BotConfig) (ok : Int → Bool)
    (st : BotState) (userID chatID : Int) (rawText : String) :
    ((sendBroadcastMessage1 config ok st.registry (goTrimSpace rawText)).isCancelled
        = true ↔ goTrimSpace rawText = "/cancel") ∧
    (handleState1 config ok st userID chatID "broadcast_message" rawText).1.userStates
      userID = none ∧
    (goTrimSpace rawText = "/cancel" →
      (handleState1 config ok st userID chatID "broadcast_message" rawText).2
        = [Effect.showMenu chatID]) ∧
    (goTrimSpace rawText ≠ "/cancel" →
      (sendBroadcastMessage1 config ok st.registry (goTrimSpace rawText)).payloadOf
        = some (goTrimSpace rawText)) := by
  by_cases h : goTrimSpace rawText = "/cancel"
  · have hout : sendBroadcastMessage1 config ok st.registry "/cancel"
        = .cancelled st.registry := by
      simp [sendBroadcastMessage1]
    refine ⟨?_, ?_, ?_, fun hc => absurd h hc⟩
    · rw [h, hout]
      simp [BroadcastOutcome.isCancelled, h]
    · simp only [handleState1, h, hout]
      simp [resetStateIn, mupd]
    · intro _
      simp only [handleState1, h, hout]
      simp
  · have hout : sendBroadcastMessage1 config ok st.registry (goTrimSpace rawText)
        = .completed (goTrimSpace rawText)
            (broadcastLoop config.adminID ok st.registry).sent
            (broadcastLoop config.adminID ok st.registry).failed
            (broadcastLoop config.adminID ok st.registry).attempted
            (broadcastLoop config.adminID ok st.registry).registry := by
      simp [sendBroadcastMessage1, h]
    refine ⟨?_, ?_, fun hc => absurd hc h, fun _ => ?_⟩
    · rw [hout]
      simp [BroadcastOutcome.isCancelled, h]
    · simp only [handleState1, hout]
      simp [resetStateIn, mupd]
    · rw [hout]
      simp [BroadcastOutcome.payloadOf]

/-- Witness for `broadcast_cancel_exact_amended`, applied at the exact text
"/cancel": the step aborts, clears the state and only redraws the menu. -/
theorem broadcast_cancel_exact_amended_witness :
    (goTrimSpace "/cancel" = "/cancel") ∧
    ((sendBroadcastMessage1 ⟨"t", 1, "public", "d"⟩ (fun _ => true)
        [⟨1, 10, "j"⟩, ⟨2, 20, "j"⟩] (goTrimSpace "/cancel")).isCancelled = true ∧
      (handleState1 ⟨"t", 1, "public", "d"⟩ (fun _ => true)
        ⟨[⟨1, 10, "j"⟩, ⟨2, 20, "j"⟩], fun _ => some "broadcast_message", fun _ => none⟩
        1 10 "broadcast_message" "/cancel").2 = [Effect.showMenu 10]) := by
  have h := broadcast_cancel_exact_amended ⟨"t", 1, "public", "d"⟩ (fun _ => true)
    ⟨[⟨1, 10, "j"⟩, ⟨2, 20, "j"⟩], fun _ => some "broadcast_message", fun _ => none⟩
    1 10 "/cancel"
  exact ⟨by decide, h.1.mpr (by decide), h.2.2.1 (by decide)⟩

-- ==========================================
-- C6: create-flow name validation
-- ==========================================

/-- C6 counterexample: the input " abc " contains the character ' ', which is
outside [A-Za-z0-9_-], so by the claim the flow must stay at the name step —
but the handler trims the text first and `abc` passes, so the flow advances
to the duration step. -/
theorem create_name_untrimmed_cex :
    (∃ ch ∈ (" abc " : String).data, usernameCharOk ch = false) ∧
    (handleState1 ⟨"t", 1, "public", "d"⟩ (fun _ => true)
        ⟨[], fun u => if u = 2 then some "create_username" else none,
          fun u => if u = 2 then some [] else none⟩
        2 20 "create_username" " abc ").1.userStates 2 = some "create_days" := by
  exact ⟨⟨' ', by decide, by decide⟩, by decide⟩

lemma validateUsernameErr_isSome_of (text : String)
    (hbad : text.length < 3 ∨ text.length > 20 ∨
      ∃ ch ∈ text.data, usernameCharOk ch = false) :
    ∃ e, validateUsernameErr text = some e := by
  unfold validateUsernameErr
  by_cases hl : text.length < 3 ∨ text.length > 20
  · exact ⟨_, by rw [if_pos hl]⟩
  · rw [if_neg hl]
    have hch : ∃ ch ∈ text.data, usernameCharOk ch = false := by tauto
    have hall : text.data.all usernameCharOk = false := by
      obtain ⟨ch, hmem, hbadc⟩ := hch
      rcases hres : text.data.all usernameCharOk with _ | _
      · rfl
      · have := (List.all_eq_true.mp hres) ch hmem
        rw [hbadc] at this
        cases this
    have hmatch : usernameRegexMatch text = false := by
      unfold usernameRegexMatch
      rw [hall]
      simp
    rw [if_pos (by rw [hmatch])]
    exact ⟨_, rfl⟩

/-- C6 amended: for every input whose TRIMMED text (surrounding whitespace
removed, as the handler does first) has length outside [3,20] or contains a
character outside [A-Za-z0-9_-], the name step re-prompts with an error and
leaves the conversation state, the scratch data and the registry unchanged —
the flow never advances to the duration step on such input. -/
theorem create_name_validation_amended (config : BotConfig) (ok : Int → Bool)
    (st : BotState) (userID chatID : Int) (rawText : String)
    (hbad : (goTrimSpace rawText).length < 3 ∨ (goTrimSpace rawText).length > 20 ∨
      ∃ ch ∈ (goTrimSpace rawText).data, usernameCharOk ch = false) :
    (handleState1 config ok st userID chatID "create_username" rawText).1.userStates
        userID = st.userStates userID ∧
    (handleState1 config ok st userID chatID "create_username" rawText).1.tempUserData
        userID = st.tempUserData userID ∧
    (handleState1 config ok st userID chatID "create_username" rawText).1.registry
        = st.registry ∧
    ∃ e, (handleState1 config ok st userID chatID "create_username" rawText).2
        = [Effect.sendText chatID e] := by
  obtain ⟨e, he⟩ := validateUsernameErr_isSome_of (goTrimSpace rawText) hbad
  simp only [handleState1, he]
  simp

/-- Witness for `create_name_validation_amended` at the too-short input "ab". -/
theorem create_name_validation_amended_witness :
    ((goTrimSpace "ab").length < 3 ∨ (goTrimSpace "ab").length > 20 ∨
      ∃ ch ∈ (goTrimSpace "ab").data, usernameCharOk ch = false) ∧
    (handleState1 ⟨"t", 1, "public", "d"⟩ (fun _ => true)
        ⟨[], fun u => if u = 2 then some "create_username" else none,
          fun u => if u = 2 then some [] else none⟩
        2 20 "create_username" "ab").1.userStates 2
      = (fun u => if u = 2 then some "create_username" else none) 2 := by
  have h := create_name_validation_amended ⟨"t", 1, "public", "d"⟩ (fun _ => true)
    ⟨[], fun u => if u = 2 then some "create_username" else none,
      fun u => if u = 2 then some [] else none⟩
    2 20 "ab" (by decide)
  exact ⟨by decide, h.1⟩

-- ==========================================
-- C8: free text with no state
-- ==========================================

/-- C8 counterexample: in part_001, an allowed user (mode public) with no
active state sending the non-command text "hello" gets NO response at all —
`handleMessage` falls through the command switch and returns without showing
the idle main menu. -/
theorem idle_text_no_menu_cex :
    (handleMessage1 ⟨"t", 1, "public", "d"⟩ (fun _ => true)
        ⟨[], fun _ => none, fun _ => none⟩
        ⟨2, 20, "u", "hello", false, false, ""⟩ "j").2 = [] := by
  decide

/-- C8 amended: for every inbound text message from an allowed user with no
active conversation state and no command, the part_000 / zivpn variant
responds by showing the idle main menu; the part_001 variant responds with
nothing at all. -/
theorem idle_text_menu_amended (config : BotConfig) (ok : Int → Bool)
    (st0 : BotState0) (st1 : BotState) (msg : MsgEvent) (now : String)
    (hallow : isAllowed config msg.userID = true)
    (hstate0 : st0.userStates msg.userID = none)
    (hstate1 : st1.userStates msg.userID = none)
    (hcmd : msg.isCmd = false) :
    (handleMessage0 config ok st0 msg now).2 = [Effect.showMenu msg.chatID] ∧
    (handleMessage1 config ok st1 msg now).2 = [] := by
  constructor
  · simp [handleMessage0, hallow, hstate0, hcmd]
  · simp [handleMessage1, hallow, hstate1, hcmd]

/-- Witness for `idle_text_menu_amended` at a concrete allowed user, empty
state and the free text "hello". -/
theorem idle_text_menu_amended_witness :
    (isAllowed ⟨"t", 1, "public", "d"⟩ 2 = true) ∧
    (handleMessage0 ⟨"t", 1, "public", "d"⟩ (fun _ => true)
        ⟨[], fun _ => none, fun _ => none⟩
        ⟨2, 20, "u", "hello", false, false, ""⟩ "j").2 = [Effect.showMenu 20] := by
  have h := idle_text_menu_amended ⟨"t", 1, "public", "d"⟩ (fun _ => true)
    ⟨[], fun _ => none, fun _ => none⟩ ⟨[], fun _ => none, fun _ => none⟩
    ⟨2, 20, "u", "hello", false, false, ""⟩ "j" (by decide) rfl rfl rfl
  exact ⟨by decide, h.1⟩

-- ==========================================
-- C5: session upsert vs access check
-- ==========================================

/-- C5 counterexample: in part_001's `handleCallback` the access check runs
BEFORE the session save, so a button click ("menu_create") from user 2 in
private mode (admin = 1) is rejected and the registry stays empty — the
claim requires that user 2's session be recorded even on rejection. -/
theorem session_upsert_order_cex :
    (handleCallback1 ⟨"t", 1, "private", "d"⟩ [] 2 20 "j" "menu_create".toList).1 = [] ∧
    (handleCallback1 ⟨"t", 1, "private", "d"⟩ [] 2 20 "j" "menu_create".toList).2
      = [Effect.ackCb "Akses Ditolak"] := by
  decide

lemma mem_saveChatSession1 (registry : List ChatSession) (userID chatID : Int)
    (now : String) :
    ((saveChatSession1 registry userID chatID now).any
      (fun s => s.userID == userID)) = true := by
  unfold saveChatSession1
  split
  · assumption
  · simp

lemma broadcastLoop_keeps_admin (a : Int) (ok : Int → Bool) (l : List ChatSession)
    (h : (l.any (fun s => s.userID == a)) = true) :
    ((broadcastLoop a ok l).registry.any (fun s => s.userID == a)) = true := by
  rw [broadcastLoop_registry]
  simp only [List.any_eq_true] at h ⊢
  obtain ⟨s, hs, hid⟩ := h
  refine ⟨s, List.mem_filter.mpr ⟨hs, ?_⟩, hid⟩
  simp only [Bool.or_eq_true]
  exact Or.inl hid

lemma handleState1_registry_any (config : BotConfig) (ok : Int → Bool)
    (st : BotState) (userID chatID : Int) (state rawText : String)
    (hmem : (st.registry.any (fun s => s.userID == userID)) = true)
    (hbs : state = "broadcast_message" → userID = config.adminID) :
    ((handleState1 config ok st userID chatID state rawText).1.registry.any
      (fun s => s.userID == userID)) = true := by
  by_cases h1 : state = "create_username"
  · cases hv : validateUsernameErr (goTrimSpace rawText) <;>
      simp [handleState1, h1, hv, hmem]
  · by_cases h2 : state = "create_days"
    · cases hv : validateNumber (goTrimSpace rawText) 1 9999 <;>
        simp [handleState1, h1, h2, hv, hmem, resetStateIn]
    · by_cases h3 : state = "renew_days"
      · cases hv : validateNumber (goTrimSpace rawText) 1 9999 <;>
          simp [handleState1, h1, h2, h3, hv, hmem, resetStateIn]
      · by_cases h4 : state = "broadcast_message"
        · have ha : userID = config.adminID := hbs h4
          by_cases hc : goTrimSpace rawText = "/cancel"
          · have hout : sendBroadcastMessage1 config ok st.registry (goTrimSpace rawText)
                = .cancelled st.registry := by simp [sendBroadcastMessage1, hc]
            simp [handleState1, h1, h2, h3, h4, hout, resetStateIn, hmem]
          · have hout : sendBroadcastMessage1 config ok st.registry (goTrimSpace rawText)
                = .completed (goTrimSpace rawText)
                    (broadcastLoop config.adminID ok st.registry).sent
                    (broadcastLoop config.adminID ok st.registry).failed
                    (broadcastLoop config.adminID ok st.registry).attempted
                    (broadcastLoop config.adminID ok st.registry).registry := by
              simp [sendBroadcastMessage1, hc]
            subst ha
            have hkeep := broadcastLoop_keeps_admin config.adminID ok st.registry hmem
            simp only [List.any_eq_true, beq_iff_eq] at hkeep
            simp [handleState1, h1, h2, h3, h4, hout, resetStateIn]
            exact hkeep
        · by_cases h5 : state = "private_message"
          · cases htmp : st.tempUserData userID <;>
              simp [handleState1, h1, h2, h3, h4, h5, htmp, resetStateIn, hmem]
          · simp [handleState1, h1, h2, h3, h4, h5, hmem]

/-- C5 amended: every inbound text message (part_001 model) and every button
click in the zivpn / part_000 variant records the sender's session, even when
the event is rejected; but in part_001's button-click handler the access
check precedes the session save, so a rejected click does not record the
session (see the counterexample).  For text messages the hypothesis `hbs`
reflects the program invariant that only the administrator can hold the
broadcast await-text state (the two entry points are admin-guarded). -/
theorem session_upsert_amended (config : BotConfig) (ok : Int → Bool)
    (st : BotState) (msg : MsgEvent) (now : String)
    (reg0 : List ChatSession0) (u c : Int) (un now0 : String) (data : List Char)
    (hbs : st.userStates msg.userID = some "broadcast_message" →
      msg.userID = config.adminID) :
    ((handleMessage1 config ok st msg now).1.registry.any
      (fun s => s.userID == msg.userID)) = true ∧
    ((zivpnHandleCallback config reg0 u c un now0 data).1.any
      (fun s => s.userID == u)) = true := by
  constructor
  · have hmem1 := mem_saveChatSession1 st.registry msg.userID msg.chatID now
    unfold handleMessage1
    dsimp only
    split
    · exact hmem1
    · split
      · simpa [resetStateIn] using hmem1
      · split
        · next s hs =>
            refine handleState1_registry_any _ _ _ _ _ _ _ hmem1 ?_
            intro hsb
            rw [hsb] at hs
            exact hbs hs
        · split
          · split
            · simpa using hmem1
            · split
              · split <;> simpa using hmem1
              · split
                · split <;> simpa using hmem1
                · simpa using hmem1
          · simpa using hmem1
  · unfold zivpnHandleCallback
    dsimp only
    split <;> simp [saveChatSession0]

/-- Witness for `session_upsert_amended`: a rejected text message (private
mode, non-admin user 2) still records user 2's session, and a zivpn button
click records user 5's session. -/
theorem session_upsert_amended_witness :
    ((handleMessage1 ⟨"t", 1, "private", "d"⟩ (fun _ => true)
        ⟨[], fun _ => none, fun _ => none⟩
        ⟨2, 20, "u", "hello", false, false, ""⟩ "j").1.registry.any
      (fun s => s.userID == 2)) = true ∧
    ((zivpnHandleCallback ⟨"t", 1, "private", "d"⟩ [] 5 50 "un" "j2"
        "menu_create".toList).1.any (fun s => s.userID == 5)) = true :=
  session_upsert_amended ⟨"t", 1, "private", "d"⟩ (fun _ => true)
    ⟨[], fun _ => none, fun _ => none⟩ ⟨2, 20, "u", "hello", false, false, ""⟩ "j"
    [] 5 50 "un" "j2" "menu_create".toList
    (by intro hx; exact absurd hx (by decide))

-- ==========================================
-- C7: callback acknowledgment count
-- ==========================================

lemma ackCount_cbBranchEffects (config : BotConfig) (userID : Int) (c : CbCase) :
    ackCount (cbBranchEffects config userID c) = 0 := by
  cases c <;> simp only [cbBranchEffects] <;>
    first
      | (split <;> simp [ackCount, isAck])
      | simp [ackCount, isAck]

/-- C7 counterexample: in zivpn, an allowed user clicking the unrecognized
token "bogus" gets TWO acknowledgments — one from the switch's `default`
branch and one from the final unconditional `bot.Request(NewCallback ...)` —
contradicting "exactly once". -/
theorem callback_ack_twice_cex :
    ackCount (zivpnHandleCallback ⟨"t", 1, "public", "d"⟩ [] 2 20 "u" "j"
      "bogus".toList).2 = 2 := by
  decide

lemma ackCount_append (a b : List Effect) :
    ackCount (a ++ b) = ackCount a + ackCount b := by
  simp [ackCount, List.filter_append]

/-- C7 amended: part_001 acknowledges every button click exactly once
(denied, recognized or unrecognized); the zivpn / part_000 variant
acknowledges denied and recognized clicks exactly once, but an unrecognized
token from an actor who passes the access gate is acknowledged twice. -/
theorem callback_ack_count_amended (config : BotConfig)
    (reg1 : List ChatSession) (reg0 : List ChatSession0)
    (userID chatID : Int) (username now : String) (data : List Char) :
    ackCount (handleCallback1 config reg1 userID chatID now data).2 = 1 ∧
    ackCount (zivpnHandleCallback config reg0 userID chatID username now data).2 =
      (if isAllowed config userID = false ∧
          (data ≠ "toggle_mode".toList ∨ userID ≠ config.adminID) then 1
        else if classifyCb0 data = .unknown then 2 else 1) := by
  constructor
  · unfold handleCallback1
    dsimp only
    split
    · simp [ackCount, isAck]
    · rw [ackCount_append, ackCount_cbBranchEffects config userID (classifyCb1 data)]
      simp [ackCount, isAck]
  · unfold zivpnHandleCallback
    dsimp only
    split
    · simp [ackCount, isAck]
    · cases hc : classifyCb0 data
      case unknown =>
        simp only [hc]
        simp [ackCount, isAck]
      all_goals
        simp only [hc]
        rw [ackCount_append, ackCount_cbBranchEffects]
        simp [ackCount, isAck]

-- ==========================================
-- C9: the dead "page_msg:" dispatch branch
-- ==========================================

lemma startsWith_mono (p : List Char) :
    ∀ q d : List Char, strStartsWith p q = true → strStartsWith q d = true →
      strStartsWith p d = true := by
  induction p with
  | nil => intro q d _ _; rfl
  | cons a ps ih =>
    intro q d hpq hqd
    cases q with
    | nil => simp [strStartsWith] at hpq
    | cons b qs =>
      cases d with
      | nil => simp [strStartsWith] at hqd
      | cons c ds =>
        simp only [strStartsWith, Bool.and_eq_true, beq_iff_eq] at hpq hqd ⊢
        obtain ⟨hab, hpq2⟩ := hpq
        obtain ⟨hbc, hqd2⟩ := hqd
        exact ⟨hab.trans hbc, ih qs ds hpq2 hqd2⟩

lemma goSplit_ne_nil (sep : Char) (l : List Char) : goSplit sep l ≠ [] := by
  cases l with
  | nil => simp [goSplit]
  | cons c cs =>
    unfold goSplit
    split
    · simp
    · split <;> simp

lemma classifyCb1_ne_pageMsgTok (d r : List Char) :
    classifyCb1 d ≠ CbCase.pageMsgTok r := by
  intro h
  unfold classifyCb1 at h
  by_cases h1 : d = "menu_create".toList
  · rw [if_pos h1] at h
    exact CbCase.noConfusion h
  rw [if_neg h1] at h
  by_cases h2 : d = "menu_delete".toList
  · rw [if_pos h2] at h
    exact CbCase.noConfusion h
  rw [if_neg h2] at h
  by_cases h3 : d = "menu_renew".toList
  · rw [if_pos h3] at h
    exact CbCase.noConfusion h
  rw [if_neg h3] at h
  by_cases h4 : d = "menu_list".toList
  · rw [if_pos h4] at h
    exact CbCase.noConfusion h
  rw [if_neg h4] at h
  by_cases h5 : d = "menu_info".toList
  · rw [if_pos h5] at h
    exact CbCase.noConfusion h
  rw [if_neg h5] at h
  by_cases h6 : d = "menu_backup_restore".toList
  · rw [if_pos h6] at h
    exact CbCase.noConfusion h
  rw [if_neg h6] at h
  by_cases h7 : d = "menu_message".toList
  · rw [if_pos h7] at h
    exact CbCase.noConfusion h
  rw [if_neg h7] at h
  by_cases h8 : d = "menu_backup_action".toList
  · rw [if_pos h8] at h
    exact CbCase.noConfusion h
  rw [if_neg h8] at h
  by_cases h9 : d = "menu_restore_action".toList
  · rw [if_pos h9] at h
    exact CbCase.noConfusion h
  rw [if_neg h9] at h
  by_cases h10 : d = "msg_broadcast".toList
  · rw [if_pos h10] at h
    exact CbCase.noConfusion h
  rw [if_neg h10] at h
  by_cases h11 : d = "msg_private".toList
  · rw [if_pos h11] at h
    exact CbCase.noConfusion h
  rw [if_neg h11] at h
  by_cases hq : strStartsWith "page_".toList d = true
  · rw [if_pos hq] at h
    exact CbCase.noConfusion h
  rw [if_neg hq] at h
  by_cases hm : strStartsWith "page_msg:".toList d = true
  · exact hq (startsWith_mono _ _ _ (by decide) hm)
  rw [if_neg hm] at h
  by_cases h12 : strStartsWith "select_renew:".toList d = true
  · rw [if_pos h12] at h
    exact CbCase.noConfusion h
  rw [if_neg h12] at h
  by_cases h13 : strStartsWith "select_delete:".toList d = true
  · rw [if_pos h13] at h
    exact CbCase.noConfusion h
  rw [if_neg h13] at h
  by_cases h14 : strStartsWith "select_user_msg:".toList d = true
  · rw [if_pos h14] at h
    exact CbCase.noConfusion h
  rw [if_neg h14] at h
  by_cases h15 : strStartsWith "confirm_delete:".toList d = true
  · rw [if_pos h15] at h
    exact CbCase.noConfusion h
  rw [if_neg h15] at h
  by_cases h16 : d = "toggle_mode".toList
  · rw [if_pos h16] at h
    exact CbCase.noConfusion h
  rw [if_neg h16] at h
  by_cases h17 : d = "cancel".toList
  · rw [if_pos h17] at h
    exact CbCase.noConfusion h
  rw [if_neg h17] at h
  exact CbCase.noConfusion h

lemma classifyCb0_ne_pageMsgTok (d r : List Char) :
    classifyCb0 d ≠ CbCase.pageMsgTok r := by
  intro h
  unfold classifyCb0 at h
  by_cases h1 : d = "menu_create".toList
  · rw [if_pos h1] at h
    exact CbCase.noConfusion h
  rw [if_neg h1] at h
  by_cases h2 : d = "menu_delete".toList
  · rw [if_pos h2] at h
    exact CbCase.noConfusion h
  rw [if_neg h2] at h
  by_cases h3 : d = "menu_renew".toList
  · rw [if_pos h3] at h
    exact CbCase.noConfusion h
  rw [if_neg h3] at h
  by_cases h4 : d = "menu_list".toList
  · rw [if_pos h4] at h
    exact CbCase.noConfusion h
  rw [if_neg h4] at h
  by_cases h5 : d = "menu_info".toList
  · rw [if_pos h5] at h
    exact CbCase.noConfusion h
  rw [if_neg h5] at h
  by_cases h6 : d = "menu_backup_restore".toList
  · rw [if_pos h6] at h
    exact CbCase.noConfusion h
  rw [if_neg h6] at h
  by_cases h7 : d = "menu_message".toList
  · rw [if_pos h7] at h
    exact CbCase.noConfusion h
  rw [if_neg h7] at h
  by_cases h8 : d = "menu_backup_action".toList
  · rw [if_pos h8] at h
    exact CbCase.noConfusion h
  rw [if_neg h8] at h
  by_cases h9 : d = "menu_restore_action".toList
  · rw [if_pos h9] at h
    exact CbCase.noConfusion h
  rw [if_neg h9] at h
  by_cases h10 : d = "msg_broadcast".toList
  · rw [if_pos h10] at h
    exact CbCase.noConfusion h
  rw [if_neg h10] at h
  by_cases h11 : d = "msg_private".toList
  · rw [if_pos h11] at h
    exact CbCase.noConfusion h
  rw [if_neg h11] at h
  by_cases h12 : d = "msg_stats".toList
  · rw [if_pos h12] at h
    exact CbCase.noConfusion h
  rw [if_neg h12] at h
  by_cases hq : strStartsWith "page_".toList d = true
  · rw [if_pos hq] at h
    exact CbCase.noConfusion h
  rw [if_neg hq] at h
  by_cases hm : strStartsWith "page_msg:".toList d = true
  · exact hq (startsWith_mono _ _ _ (by decide) hm)
  rw [if_neg hm] at h
  by_cases h13 : strStartsWith "select_renew:".toList d = true
  · rw [if_pos h13] at h
    exact CbCase.noConfusion h
  rw [if_neg h13] at h
  by_cases h14 : strStartsWith "select_delete:".toList d = true
  · rw [if_pos h14] at h
    exact CbCase.noConfusion h
  rw [if_neg h14] at h
  by_cases h15 : strStartsWith "select_user_msg:".toList d = true
  · rw [if_pos h15] at h
    exact CbCase.noConfusion h
  rw [if_neg h15] at h
  by_cases h16 : strStartsWith "confirm_delete:".toList d = true
  · rw [if_pos h16] at h
    exact CbCase.noConfusion h
  rw [if_neg h16] at h
  by_cases h17 : d = "toggle_mode".toList
  · rw [if_pos h17] at h
    exact CbCase.noConfusion h
  rw [if_neg h17] at h
  by_cases h18 : d = "cancel".toList
  · rw [if_pos h18] at h
    exact CbCase.noConfusion h
  rw [if_neg h18] at h
  exact CbCase.noConfusion h


lemma append_head_ne {a b : Char} {l1 l2 : List Char} (hab : a ≠ b) :
    a :: l1 ≠ b :: l2 := by
  intro he
  injection he with h1 _
  exact hab h1

/-- C9: every action token beginning with "page_msg:" is caught by the
earlier "page_" prefix case of the callback switch (in part_001 and in the
zivpn / part_000 variant alike) and routed to `handlePagination`, which
parses the action kind as "msg" — so the dedicated "page_msg:" branch
(`showUserSelectionForMessage`) is unreachable for every input. -/
theorem page_msg_branch_unreachable (s : List Char) :
    classifyCb1 ("page_msg:".toList ++ s) = CbCase.pageTok ("page_msg:".toList ++ s) ∧
    classifyCb0 ("page_msg:".toList ++ s) = CbCase.pageTok ("page_msg:".toList ++ s) ∧
    (∃ n : Int, handlePagination ("page_msg:".toList ++ s)
      = some ("msg".toList, n)) ∧
    (∀ d r : List Char, classifyCb1 d ≠ CbCase.pageMsgTok r) ∧
    (∀ d r : List Char, classifyCb0 d ≠ CbCase.pageMsgTok r) := by
  refine ⟨?_, ?_, ?_, classifyCb1_ne_pageMsgTok, classifyCb0_ne_pageMsgTok⟩
  · unfold classifyCb1
    rw [if_neg (show ("page_msg:".toList ++ s) ≠ "menu_create".toList from
      append_head_ne (by decide))]
    rw [if_neg (show ("page_msg:".toList ++ s) ≠ "menu_delete".toList from
      append_head_ne (by decide))]
    rw [if_neg (show ("page_msg:".toList ++ s) ≠ "menu_renew".toList from
      append_head_ne (by decide))]
    rw [if_neg (show ("page_msg:".toList ++ s) ≠ "menu_list".toList from
      append_head_ne (by decide))]
    rw [if_neg (show ("page_msg:".toList ++ s) ≠ "menu_info".toList from
      append_head_ne (by decide))]
    rw [if_neg (show ("page_msg:".toList ++ s) ≠ "menu_backup_restore".toList from
      append_head_ne (by decide))]
    rw [if_neg (show ("page_msg:".toList ++ s) ≠ "menu_message".toList from
      append_head_ne (by decide))]
    rw [if_neg (show ("page_msg:".toList ++ s) ≠ "menu_backup_action".toList from
      append_head_ne (by decide))]
    rw [if_neg (show ("page_msg:".toList ++ s) ≠ "menu_restore_action".toList from
      append_head_ne (by decide))]
    rw [if_neg (show ("page_msg:".toList ++ s) ≠ "msg_broadcast".toList from
      append_head_ne (by decide))]
    rw [if_neg (show ("page_msg:".toList ++ s) ≠ "msg_private".toList from
      append_head_ne (by decide))]
    rw [if_pos (show strStartsWith "page_".toList ("page_msg:".toList ++ s)
      = true from rfl)]
  · unfold classifyCb0
    rw [if_neg (show ("page_msg:".toList ++ s) ≠ "menu_create".toList from
      append_head_ne (by decide))]
    rw [if_neg (show ("page_msg:".toList ++ s) ≠ "menu_delete".toList from
      append_head_ne (by decide))]
    rw [if_neg (show ("page_msg:".toList ++ s) ≠ "menu_renew".toList from
      append_head_ne (by decide))]
    rw [if_neg (show ("page_msg:".toList ++ s) ≠ "menu_list".toList from
      append_head_ne (by decide))]
    rw [if_neg (show ("page_msg:".toList ++ s) ≠ "menu_info".toList from
      append_head_ne (by decide))]
    rw [if_neg (show ("page_msg:".toList ++ s) ≠ "menu_backup_restore".toList from
      append_head_ne (by decide))]
    rw [if_neg (show ("page_msg:".toList ++ s) ≠ "menu_message".toList from
      append_head_ne (by decide))]
    rw [if_neg (show ("page_msg:".toList ++ s) ≠ "menu_backup_action".toList from
      append_head_ne (by decide))]
    rw [if_neg (show ("page_msg:".toList ++ s) ≠ "menu_restore_action".toList from
      append_head_ne (by decide))]
    rw [if_neg (show ("page_msg:".toList ++ s) ≠ "msg_broadcast".toList from
      append_head_ne (by decide))]
    rw [if_neg (show ("page_msg:".toList ++ s) ≠ "msg_private".toList from
      append_head_ne (by decide))]
    rw [if_neg (show ("page_msg:".toList ++ s) ≠ "msg_stats".toList from
      append_head_ne (by decide))]
    rw [if_pos (show strStartsWith "page_".toList ("page_msg:".toList ++ s)
      = true from rfl)]
  · have hsplit : goSplit ':' ("page_msg:".toList ++ s)
        = "page_msg".toList :: goSplit ':' s := rfl
    rcases hgs : goSplit ':' s with _ | ⟨q, qs⟩
    · exact absurd hgs (goSplit_ne_nil ':' s)
    · refine ⟨goAtoi q, ?_⟩
      unfold handlePagination
      rw [hsplit, hgs]
      rfl
